import Mathlib

/-!
Verification of `src/copy-object-multipart.js` (aws-s3-multipart-copy).

The JavaScript source is shallowly embedded below.  JS numbers that hold byte
counts and indices are modelled as `Int` (`Math.floor(a / b)` becomes
`Int.fdiv`, the JS `%` operator becomes `Int.tmod`, both matching JS semantics
for integral operands).  The byte-range strings `start + '-' + end` produced by
`calculatePartitionsRangeArray` are modelled as pairs of endpoints, since the
rendering to a string is injective and no other code inspects the string.
The AWS S3 client is modelled as a record of response oracles (`MockClient`);
an orchestration run returns the list of issued S3 calls (its trace, in issue
order) together with its outcome.  Promises are modelled by `Except`:
a rejected promise is `Except.error`.  `Promise.all` dispatches every call
before awaiting, settles results in array order, and rejects with the first
rejection; `collectAll` models the join.
-/

/-- Source constant: `const COPY_PART_SIZE_MINIMUM_BYTES = 5242880;`. -/
def COPY_PART_SIZE_MINIMUM_BYTES : Int := 5242880

/-- Source constant: `const DEFAULT_COPY_PART_SIZE_BYTES = 50000000;`. -/
def DEFAULT_COPY_PART_SIZE_BYTES : Int := 50000000

/-- Source constant: `const DEFAULT_COPIED_OBJECT_PERMISSIONS = 'private';`
(used only in the initiate request's configuration fields, which the claims
below do not inspect). -/
def DEFAULT_COPIED_OBJECT_PERMISSIONS : String := "private"

/-- A byte range emitted by the partition planner.  The JS code renders it as
the string `start + '-' + stop`; we keep the two endpoints. -/
structure Partition where
  start : Int
  stop : Int
deriving DecidableEq, Repr

/-- JS `a || d` for an optional numeric argument: `undefined` (`none`) and `0`
are falsy and select the default. -/
def jsOrDefault (a : Option Int) (d : Int) : Int :=
  match a with
  | none => d
  | some v => if v = 0 then d else v

/-- Embedding of `calculatePartitionsRangeArray(object_size, copy_part_size_bytes)`.
The `for` loop over `index = 0 .. numOfPartitions - 1` is modelled as a map
over `List.range numOfPartitions.toNat` (a non-positive bound runs zero
iterations, as in JS); after the loop the JS variable `index` holds
`max numOfPartitions 0`, i.e. `numOfPartitions.toNat`. -/
def calculatePartitionsRangeArray (object_size : Int) (copy_part_size_bytes : Option Int) :
    List Partition :=
  let copy_part_size := jsOrDefault copy_part_size_bytes DEFAULT_COPY_PART_SIZE_BYTES
  let numOfPartitions : Int := Int.fdiv object_size copy_part_size
  let remainder : Int := Int.tmod object_size copy_part_size
  let loopPartitions : List Partition :=
    (List.range numOfPartitions.toNat).map (fun (index : Nat) =>
      let nextIndex : Int := (index : Int) + 1
      if nextIndex = numOfPartitions ∧ remainder < COPY_PART_SIZE_MINIMUM_BYTES then
        ⟨(index : Int) * copy_part_size, nextIndex * copy_part_size + remainder - 1⟩
      else
        ⟨(index : Int) * copy_part_size, nextIndex * copy_part_size - 1⟩)
  if remainder ≥ COPY_PART_SIZE_MINIMUM_BYTES then
    loopPartitions ++
      [⟨(numOfPartitions.toNat : Int) * copy_part_size,
        (numOfPartitions.toNat : Int) * copy_part_size + remainder - 1⟩]
  else
    loopPartitions

/-- The `CopyPartResult` field of a successful `UploadPartCopyCommand` response. -/
structure CopyPartResult where
  ETag : String
deriving DecidableEq, Repr

/-- A successful `UploadPartCopyCommand` response (`copy_part` in
`prepareResultsForCopyCompletion`). -/
structure UploadPartCopyResponse where
  CopyPartResult : CopyPartResult
deriving DecidableEq, Repr

/-- One entry of the `Parts` array passed to `CompleteMultipartUploadCommand`. -/
structure CompletedPart where
  ETag : String
  PartNumber : Int
deriving DecidableEq, Repr

/-- Embedding of `prepareResultsForCopyCompletion(copy_parts_results_array)`. -/
def prepareResultsForCopyCompletion (copy_parts_results_array : List UploadPartCopyResponse) :
    List CompletedPart :=
  copy_parts_results_array.enum.map (fun p =>
    { ETag := p.2.CopyPartResult.ETag, PartNumber := (p.1 : Int) + 1 })

/-- A `ListPartsCommand` response; the source only reads `parts_list.Parts`. -/
structure PartsList where
  Parts : List CompletedPart
deriving DecidableEq, Repr

/-- The `details` field the source attaches to the errors it constructs:
`err.details = params` (bucket / key / upload id) in the aborted case,
`err.details = parts_list` in the inconsistency case; errors coming from the
client carry no `details`. -/
inductive JsErrorDetails where
  | noDetails
  | abortParams (Bucket Key UploadId : String)
  | listingDetails (parts_list : PartsList)
deriving DecidableEq, Repr

/-- A JS `Error` as used by the source: a message plus the optional `details`
field the source assigns. -/
structure JsError where
  message : String
  details : JsErrorDetails
deriving DecidableEq, Repr

/-- One S3 request issued through `client.send`, as recorded in a run's trace.
The parameters the verified claims inspect are kept; the initiate request's
optional ACL/metadata configuration fields are omitted, and `CopySource` is
recorded unencoded (the `encodeURIComponent` wrapper is injective on it). -/
inductive S3Call where
  | createMultipartUpload (Bucket Key : String)
  | uploadPartCopy (Bucket CopySource Key : String) (PartNumber : Int)
      (CopySourceRange : Partition) (UploadId : String)
  | completeMultipartUpload (Bucket Key : String) (Parts : List CompletedPart)
      (UploadId : String)
  | abortMultipartUpload (Bucket Key : String) (UploadId : String)
  | listParts (Bucket Key : String) (UploadId : String)
deriving DecidableEq, Repr

/-- The S3 client as a record of response oracles, one per command kind.
`createMultipartUploadResp` yields the `UploadId`; `uploadPartCopyResp` is
keyed by part number and range; `completeMultipartUploadResp` is keyed by the
manifest it receives and yields the completion response. -/
structure MockClient where
  createMultipartUploadResp : Except JsError String
  uploadPartCopyResp : Int → Partition → Except JsError UploadPartCopyResponse
  completeMultipartUploadResp : List CompletedPart → Except JsError String
  abortMultipartUploadResp : Except JsError Unit
  listPartsResp : Except JsError PartsList

/-- Join of `Promise.all`: every promise in the array was already dispatched;
the join yields the results in array order, or rejects with the first
rejection. -/
def collectAll : List (Except JsError UploadPartCopyResponse) →
    Except JsError (List UploadPartCopyResponse)
  | [] => .ok []
  | .error e :: _ => .error e
  | .ok v :: rest => (collectAll rest).map (fun vs => v :: vs)

/-- Embedding of `abortMultipartCopy(destination_bucket, copied_object_name, upload_id)`:
send abort, then list-parts, then always reject — with the transport error if
abort or list-parts itself failed, with the inconsistency error when parts
remain, and with the aborted error (carrying the request params as details)
when the listing is empty.  Returns the calls issued and the rejection. -/
def abortMultipartCopy (client : MockClient)
    (destination_bucket copied_object_name upload_id : String) :
    List S3Call × JsError :=
  let abortCall := S3Call.abortMultipartUpload destination_bucket copied_object_name upload_id
  match client.abortMultipartUploadResp with
  | .error err => ([abortCall], err)
  | .ok _ =>
    let listCall := S3Call.listParts destination_bucket copied_object_name upload_id
    match client.listPartsResp with
    | .error err => ([abortCall, listCall], err)
    | .ok parts_list =>
      if parts_list.Parts.length > 0 then
        ([abortCall, listCall],
         { message := "Abort procedure passed but copy parts were not removed",
           details := .listingDetails parts_list })
      else
        ([abortCall, listCall],
         { message := "multipart copy aborted",
           details := .abortParams destination_bucket copied_object_name upload_id })

/-- Embedding of `copyObjectMultipart(options, request_context)`.  The initiate
call is awaited first (its rejection propagates to the caller untouched); the
planner then yields the ranges; one `UploadPartCopyCommand` per range is
dispatched (all are issued before the join); on all-success the manifest is
built and `CompleteMultipartUploadCommand` is sent; any rejection reaching the
`catch` — a part-copy failure or a failed complete — discards the error (the
handler is `() => ...`) and runs `abortMultipartCopy`, whose rejection becomes
the caller's.  Returns the trace of issued calls and the outcome. -/
def copyObjectMultipart (client : MockClient)
    (source_bucket object_key destination_bucket copied_object_name : String)
    (object_size : Int) (copy_part_size_bytes : Option Int) :
    List S3Call × Except JsError String :=
  let initCall := S3Call.createMultipartUpload destination_bucket copied_object_name
  match client.createMultipartUploadResp with
  | .error err => ([initCall], .error err)
  | .ok upload_id =>
    let partitionsRangeArray := calculatePartitionsRangeArray object_size copy_part_size_bytes
    let copySource := source_bucket ++ "/" ++ object_key
    let copyCalls := partitionsRangeArray.enum.map (fun p =>
      S3Call.uploadPartCopy destination_bucket copySource copied_object_name
        ((p.1 : Int) + 1) p.2 upload_id)
    let copyResponses := partitionsRangeArray.enum.map (fun p =>
      client.uploadPartCopyResp ((p.1 : Int) + 1) p.2)
    let dispatchTrace := initCall :: copyCalls
    match collectAll copyResponses with
    | .ok copy_results =>
      let copyResultsForCopyCompletion := prepareResultsForCopyCompletion copy_results
      let completeCall := S3Call.completeMultipartUpload destination_bucket copied_object_name
        copyResultsForCopyCompletion upload_id
      match client.completeMultipartUploadResp copyResultsForCopyCompletion with
      | .ok response => (dispatchTrace ++ [completeCall], .ok response)
      | .error _ =>
        let aborted := abortMultipartCopy client destination_bucket copied_object_name upload_id
        (dispatchTrace ++ [completeCall] ++ aborted.1, .error aborted.2)
    | .error _ =>
      let aborted := abortMultipartCopy client destination_bucket copied_object_name upload_id
      (dispatchTrace ++ aborted.1, .error aborted.2)

instance {ε α : Type} [DecidableEq ε] [DecidableEq α] : DecidableEq (Except ε α) :=
  fun a b =>
    match a, b with
    | .ok x, .ok y => if h : x = y then .isTrue (by rw [h]) else .isFalse (by simp [h])
    | .error x, .error y => if h : x = y then .isTrue (by rw [h]) else .isFalse (by simp [h])
    | .ok _, .error _ => .isFalse (by simp)
    | .error _, .ok _ => .isFalse (by simp)

/-- Predicate `coversExactly l s e`: the ranges in `l` are, in order,
contiguous, non-empty and non-overlapping, and their union is exactly the
integer interval `[s, e]` (empty when `s = e + 1`). -/
def coversExactly : List Partition → Int → Int → Prop
  | [], s, e => s = e + 1
  | p :: rest, s, e => p.start = s ∧ s ≤ p.stop ∧ coversExactly rest (p.stop + 1) e

/-- The slice the planner's loop emits when no widening applies. -/
def plainSlice (ps : Int) (i : Nat) : Partition :=
  ⟨(i : Int) * ps, ((i : Int) + 1) * ps - 1⟩

/-- Concrete source bucket used by the concrete runs below. -/
def sb0 : String := "source-bucket"

/-- Concrete source object key used by the concrete runs below. -/
def key0 : String := "source-key"

/-- Concrete destination bucket used by the concrete runs below. -/
def db0 : String := "dest-bucket"

/-- Concrete destination object name used by the concrete runs below. -/
def obj0 : String := "dest-name"

/-- Concrete upload id issued by the concrete clients below. -/
def uid0 : String := "upload-id-1"

/-- Concrete completion response of the concrete clients below. -/
def resp0 : String := "complete-ok"

/-- Concrete first part-copy failure message. -/
def msgA : String := "first part-copy failure"

/-- Concrete second part-copy failure message. -/
def msgB : String := "second part-copy failure"

/-- Concrete generic part-copy failure message. -/
def msgPartFail : String := "part copy failed"

/-- A client on which every operation succeeds: the upload id is `uid0`,
every part copy yields the etag `"etag"`, completion yields `resp0`, abort
succeeds and the post-abort listing is empty. -/
def okClient : MockClient where
  createMultipartUploadResp := .ok uid0
  uploadPartCopyResp := fun _ _ => .ok ⟨⟨"etag"⟩⟩
  completeMultipartUploadResp := fun _ => .ok resp0
  abortMultipartUploadResp := .ok ()
  listPartsResp := .ok ⟨[]⟩

/-- Like `okClient`, except the complete-multipart call fails. -/
def completeFailsClient : MockClient :=
  { okClient with
    completeMultipartUploadResp := fun _ => .error ⟨"complete failed", .noDetails⟩ }

/-- Like `okClient`, except the copy of part 2 fails with the given message. -/
def partFailsClient (msg : String) : MockClient :=
  { okClient with
    uploadPartCopyResp := fun i _ =>
      if i = 2 then .error ⟨msg, .noDetails⟩ else .ok ⟨⟨"etag"⟩⟩ }

theorem coversExactly_append {xs ys : List Partition} {s m e : Int}
    (hx : coversExactly xs s m) (hy : coversExactly ys (m + 1) e) :
    coversExactly (xs ++ ys) s e := by
  induction xs generalizing s with
  | nil =>
    simp only [coversExactly] at hx
    subst hx
    simpa using hy
  | cons p rest ih =>
    obtain ⟨h1, h2, h3⟩ := hx
    exact ⟨h1, h2, ih h3⟩

theorem coversExactly_plainSlices {ps : Int} (hps : 0 < ps) (n : Nat) :
    coversExactly ((List.range n).map (plainSlice ps)) 0 ((n : Int) * ps - 1) := by
  induction n with
  | zero => simp [coversExactly]
  | succ k ih =>
    rw [List.range_succ, List.map_append, List.map_singleton]
    refine coversExactly_append (m := (k : Int) * ps - 1) ih ?_
    refine ⟨by simp only [plainSlice]; ring, ?_, ?_⟩
    · simp only [plainSlice]
      nlinarith
    · simp only [coversExactly, plainSlice]
      push_cast
      ring

theorem coversExactly_map_range_of_eq {f : Nat → Partition} {ps : Int} (hps : 0 < ps) (n : Nat)
    (hf : ∀ i, i < n → f i = plainSlice ps i) :
    coversExactly ((List.range n).map f) 0 ((n : Int) * ps - 1) := by
  rw [List.map_congr_left (fun i hi => hf i (List.mem_range.mp hi))]
  exact coversExactly_plainSlices hps n

/-- Claim C1, counterexample.  The claim quantifies over every
`object_size > 0` and every `part_size` at least the 5,242,880-byte minimum,
but at `object_size = 1`, `part_size = 5242880` the planner returns the empty
list: no ranges at all, so the output is neither non-empty nor a cover of
`[0, 0]`. -/
theorem C1_counterexample :
    (0 : Int) < 1 ∧ COPY_PART_SIZE_MINIMUM_BYTES ≤ 5242880 ∧
      calculatePartitionsRangeArray 1 (some 5242880) = [] ∧
      ¬ coversExactly (calculatePartitionsRangeArray 1 (some 5242880)) 0 (1 - 1) := by
  refine ⟨by norm_num, by norm_num [COPY_PART_SIZE_MINIMUM_BYTES], by decide, fun h => ?_⟩
  rw [(by decide : calculatePartitionsRangeArray 1 (some 5242880) = [])] at h
  simp [coversExactly] at h

/-- Claim C1, amended.  For every `object_size` that is at least the
5,242,880-byte minimum part size and every `part_size` at least that minimum,
the planner's output is non-empty and its ranges are, in order, contiguous,
non-overlapping and non-empty with union exactly `[0, object_size − 1]`
(`coversExactly`).  (The original claim's `object_size > 0` fails below the
minimum, where the planner emits no ranges.) -/
theorem C1_planner_ranges_cover (object_size part_size : Int)
    (hos : COPY_PART_SIZE_MINIMUM_BYTES ≤ object_size)
    (hps : COPY_PART_SIZE_MINIMUM_BYTES ≤ part_size) :
    calculatePartitionsRangeArray object_size (some part_size) ≠ [] ∧
      coversExactly (calculatePartitionsRangeArray object_size (some part_size))
        0 (object_size - 1) := by
  have hmin0 : (0 : Int) < COPY_PART_SIZE_MINIMUM_BYTES := by
    norm_num [COPY_PART_SIZE_MINIMUM_BYTES]
  have hps0 : (0 : Int) < part_size := lt_of_lt_of_le hmin0 hps
  have hos0 : (0 : Int) < object_size := lt_of_lt_of_le hmin0 hos
  have hpsne : part_size ≠ 0 := ne_of_gt hps0
  have hn0 : 0 ≤ object_size / part_size := Int.ediv_nonneg hos0.le hps0.le
  have hr0 : 0 ≤ object_size % part_size := Int.emod_nonneg _ hpsne
  have hrlt : object_size % part_size < part_size := Int.emod_lt_of_pos _ hps0
  have heq : part_size * (object_size / part_size) + object_size % part_size = object_size :=
    Int.ediv_add_emod _ _
  simp only [calculatePartitionsRangeArray, jsOrDefault, if_neg hpsne,
    Int.fdiv_eq_ediv _ hps0.le, Int.tmod_eq_emod hos0.le hps0.le]
  set n : Int := object_size / part_size with hn_def
  set r : Int := object_size % part_size with hr_def
  have htn : ((n.toNat : ℕ) : Int) = n := Int.toNat_of_nonneg hn0
  by_cases hrem : COPY_PART_SIZE_MINIMUM_BYTES ≤ r
  · rw [if_pos hrem]
    refine ⟨by simp, ?_⟩
    refine coversExactly_append (m := ((n.toNat : ℕ) : Int) * part_size - 1)
      (coversExactly_map_range_of_eq hps0 n.toNat ?_) ?_
    · intro i _
      rw [if_neg (fun hand => absurd hand.2 (not_lt.mpr hrem))]
      rfl
    · rw [htn]
      refine ⟨by simp, by simp; nlinarith, ?_⟩
      simp only [coversExactly]
      linarith [heq]
  · push_neg at hrem
    rw [if_neg (not_le.mpr hrem)]
    have hn1 : 1 ≤ n := by
      by_contra hcon
      push_neg at hcon
      have hn_eq : n = 0 := le_antisymm (by omega) hn0
      rw [hn_eq, Int.mul_zero, Int.zero_add] at heq
      omega
    obtain ⟨k, hk⟩ : ∃ k, n.toNat = k + 1 := ⟨n.toNat - 1, by omega⟩
    have hkn : (k : Int) + 1 = n := by omega
    rw [hk]
    simp only [List.range_succ, List.map_append, List.map_singleton]
    refine ⟨by simp, ?_⟩
    refine coversExactly_append (m := (k : Int) * part_size - 1)
      (coversExactly_map_range_of_eq hps0 k ?_) ?_
    · intro i hi
      rw [if_neg (fun hand => by omega)]
      rfl
    · rw [if_pos ⟨hkn, hrem⟩]
      refine ⟨by simp, by simp; nlinarith, ?_⟩
      simp only [coversExactly]
      have hmul : ((k : Int) + 1) * part_size = part_size * n := by rw [hkn]; ring
      linarith [heq]

/-- Claim C4, counterexample.  The claim says that for `object_size` below the
minimum part size the planner emits a single whole-object range — concretely
`[0, 2999999]` for `object_size = 3,000,000` with the default part size — but
the code emits no range at all: the loop runs zero times and the remainder
(`3,000,000 < 5,242,880`) is too small for the trailing push. -/
theorem C4_counterexample :
    calculatePartitionsRangeArray 3000000 none = [] ∧
      calculatePartitionsRangeArray 3000000 none ≠ [⟨0, 2999999⟩] := by
  refine ⟨by decide, ?_⟩
  intro h
  rw [(by decide : calculatePartitionsRangeArray 3000000 none = [])] at h
  exact absurd h (by simp)

/-- Claim C4, amended.  For every `object_size` with
`0 < object_size < 5,242,880` and the default part size, the planner emits no
range at all (the empty list), not a single whole-object range. -/
theorem C4_planner_empty_below_minimum (object_size : Int)
    (h1 : 0 < object_size) (h2 : object_size < COPY_PART_SIZE_MINIMUM_BYTES) :
    calculatePartitionsRangeArray object_size none = [] := by
  have hlt : object_size < DEFAULT_COPY_PART_SIZE_BYTES := by
    have : COPY_PART_SIZE_MINIMUM_BYTES < DEFAULT_COPY_PART_SIZE_BYTES := by
      norm_num [COPY_PART_SIZE_MINIMUM_BYTES, DEFAULT_COPY_PART_SIZE_BYTES]
    linarith
  have hD : (0 : Int) ≤ DEFAULT_COPY_PART_SIZE_BYTES := by
    norm_num [DEFAULT_COPY_PART_SIZE_BYTES]
  simp only [calculatePartitionsRangeArray, jsOrDefault,
    Int.fdiv_eq_ediv _ hD, Int.tmod_eq_emod h1.le hD,
    Int.ediv_eq_zero_of_lt h1.le hlt, Int.emod_eq_of_lt h1.le hlt]
  rw [if_neg (not_le.mpr h2)]
  simp

/-- Claim C4 witness: the amended fact at the spec's own example input
`object_size = 3,000,000`. -/
theorem C4_witness :
    (0 : Int) < 3000000 ∧ (3000000 : Int) < COPY_PART_SIZE_MINIMUM_BYTES ∧
      calculatePartitionsRangeArray 3000000 none = [] := by
  refine ⟨by norm_num, by norm_num [COPY_PART_SIZE_MINIMUM_BYTES], ?_⟩
  exact C4_planner_empty_below_minimum 3000000 (by norm_num)
    (by norm_num [COPY_PART_SIZE_MINIMUM_BYTES])

/-- Claim C5, counterexample.  For `object_size = 120,000,000` and
`part_size = 50,000,000` the planner does not produce the two claimed ranges:
the 20,000,000-byte remainder is at least the minimum, so the loop's final
slice is NOT widened and the remainder becomes a third trailing range. -/
theorem C5_counterexample :
    calculatePartitionsRangeArray 120000000 (some 50000000) ≠
      [⟨0, 49999999⟩, ⟨50000000, 119999999⟩] := by decide

/-- Claim C5, amended.  For `object_size = 120,000,000` and
`part_size = 50,000,000`, the planner produces exactly 3 ranges:
`[0, 49999999]`, `[50000000, 99999999]` and `[100000000, 119999999]`. -/
theorem C5_planner_three_ranges :
    calculatePartitionsRangeArray 120000000 (some 50000000) =
      [⟨0, 49999999⟩, ⟨50000000, 99999999⟩, ⟨100000000, 119999999⟩] := by decide

/-- Claim C6.  For `object_size = 100,000,004` and `part_size = 50,000,000` the
4-byte remainder is below the minimum part size, so the loop widens its final
slice to absorb it: exactly the two ranges `[0, 49999999]` and
`[50000000, 100000003]` are produced, with no separate trailing range. -/
theorem C6_planner_merges_small_remainder :
    calculatePartitionsRangeArray 100000004 (some 50000000) =
      [⟨0, 49999999⟩, ⟨50000000, 100000003⟩] := by decide

theorem collectAll_ok_of_forall {l : List (Except JsError UploadPartCopyResponse)}
    (h : ∀ x ∈ l, ∃ v, x = .ok v) :
    ∃ vs, collectAll l = .ok vs ∧ vs.length = l.length := by
  induction l with
  | nil => exact ⟨[], rfl, rfl⟩
  | cons x rest ih =>
    obtain ⟨v, hv⟩ := h x (List.mem_cons_self _ _)
    obtain ⟨vs, hvs, hlen⟩ := ih (fun y hy => h y (List.mem_cons_of_mem _ hy))
    subst hv
    exact ⟨v :: vs, by simp [collectAll, hvs, Except.map], by simp [hlen]⟩

theorem collectAll_error_of_exists {l : List (Except JsError UploadPartCopyResponse)}
    (h : ∃ x ∈ l, ∃ e, x = .error e) :
    ∃ e, collectAll l = .error e := by
  induction l with
  | nil => simp at h
  | cons x rest ih =>
    rcases x with e | v
    · exact ⟨e, rfl⟩
    · obtain ⟨y, hy, e, he⟩ := h
      rcases List.mem_cons.mp hy with hyx | hyr
      · rw [hyx] at he; exact absurd he (by simp)
      · obtain ⟨e', he'⟩ := ih ⟨y, hyr, e, he⟩
        exact ⟨e', by simp [collectAll, he', Except.map]⟩

theorem map_enum_fst {α β : Type} (g : Nat → β) (l : List α) :
    l.enum.map (fun p => g p.1) = (List.range l.length).map g := by
  rw [List.enum_eq_zip_range]
  have h1 : (fun (p : Nat × α) => g p.1) = g ∘ Prod.fst := rfl
  rw [h1, ← List.map_map, List.map_fst_zip _ _ (by simp)]

theorem prepare_partNumbers (l : List UploadPartCopyResponse) :
    (prepareResultsForCopyCompletion l).map (fun c => c.PartNumber) =
      (List.range l.length).map (fun (i : Nat) => (i : Int) + 1) := by
  have h : (prepareResultsForCopyCompletion l).map (fun c => c.PartNumber) =
      l.enum.map (fun p => (p.1 : Int) + 1) := by
    simp [prepareResultsForCopyCompletion]
  rw [h]
  exact map_enum_fst (fun i => (i : Int) + 1) l

theorem partNumbers_ascending (n : Nat) :
    ((List.range n).map (fun (i : Nat) => (i : Int) + 1)).Pairwise (· < ·) := by
  refine List.pairwise_map.mpr ((List.pairwise_lt_range n).imp ?_)
  intro a b h
  omega

/-- The abort procedure always issues the abort request first, whatever the
client answers. -/
theorem abortMultipartCopy_issues_abort (client : MockClient) (db con uid : String) :
    S3Call.abortMultipartUpload db con uid ∈ (abortMultipartCopy client db con uid).1 := by
  unfold abortMultipartCopy
  rcases client.abortMultipartUploadResp with e | u
  · simp
  · rcases client.listPartsResp with e | pl
    · simp
    · by_cases h : pl.Parts.length > 0 <;> simp [h]

/-- Claim C2, counterexample.  All part copies succeed and the complete call
fails, yet the run issues an abort request and rejects with the abort-path
error `"multipart copy aborted"`, not with the finalize failure
`"complete failed"` as-is. -/
theorem C2_counterexample :
    S3Call.abortMultipartUpload db0 obj0 uid0 ∈
        (copyObjectMultipart completeFailsClient sb0 key0 db0 obj0
          100000004 (some 50000000)).1 ∧
      (copyObjectMultipart completeFailsClient sb0 key0 db0 obj0
          100000004 (some 50000000)).2 =
        .error ⟨"multipart copy aborted", .abortParams db0 obj0 uid0⟩ ∧
      (copyObjectMultipart completeFailsClient sb0 key0 db0 obj0
          100000004 (some 50000000)).2 ≠
        .error ⟨"complete failed", .noDetails⟩ := by decide

/-- Claim C2, amended.  When every part copy succeeds and the complete call
fails, the rejection reaches the same `catch` handler as a part-copy failure:
`copyObjectMultipart` runs the abort procedure (the abort request is issued)
and rejects with the abort procedure's error, discarding the finalize
failure. -/
theorem C2_finalize_failure_runs_abort (client : MockClient)
    (sb okey db con uid : String) (object_size : Int) (cps : Option Int)
    (etag : Int → Partition → UploadPartCopyResponse) (e : JsError)
    (hinit : client.createMultipartUploadResp = .ok uid)
    (hok : ∀ i p, client.uploadPartCopyResp i p = .ok (etag i p))
    (hcomp : ∀ m, client.completeMultipartUploadResp m = .error e) :
    S3Call.abortMultipartUpload db con uid ∈
        (copyObjectMultipart client sb okey db con object_size cps).1 ∧
      (copyObjectMultipart client sb okey db con object_size cps).2 =
        .error (abortMultipartCopy client db con uid).2 := by
  obtain ⟨vs, hvs, -⟩ := collectAll_ok_of_forall
    (l := (calculatePartitionsRangeArray object_size cps).enum.map
      (fun p => client.uploadPartCopyResp ((p.1 : Int) + 1) p.2))
    (fun x hx => by
      obtain ⟨p, -, hp⟩ := List.mem_map.mp hx
      exact ⟨etag ((p.1 : Int) + 1) p.2, by rw [← hp, hok]⟩)
  constructor
  all_goals simp only [copyObjectMultipart, hinit, hvs, hcomp]
  all_goals simp [abortMultipartCopy_issues_abort]

/-- Claim C3, counterexample.  At `object_size = 0` (non-positive) and
`copy_part_size_bytes = 1000` (below the 5,242,880 minimum), the operation
does not fail at all — it resolves with the completion response — and the
initiate network call is issued first: no `InvalidInput` error exists anywhere
in the code and no validation precedes the network calls. -/
theorem C3_counterexample :
    (copyObjectMultipart okClient sb0 key0 db0 obj0 0 (some 1000)).2 =
        .ok resp0 ∧
      (copyObjectMultipart okClient sb0 key0 db0 obj0 0 (some 1000)).1.head? =
        some (.createMultipartUpload db0 obj0) := by decide

/-- Claim C3, amended.  The code performs no input validation: for every
input — including `object_size ≤ 0` and part sizes below the minimum — the
first thing `copyObjectMultipart` does is issue the initiate network request;
no `InvalidInput` error is ever raised. -/
theorem C3_no_validation_initiate_always_first (client : MockClient)
    (sb okey db con : String) (object_size : Int) (cps : Option Int) :
    ((copyObjectMultipart client sb okey db con object_size cps).1).head? =
      some (.createMultipartUpload db con) := by
  unfold copyObjectMultipart
  split
  · rfl
  · dsimp only
    split
    · split <;> simp
    · simp

/-- Claim C1 witness: the amended cover theorem instantiated at
`object_size = 10485760`, `part_size = 5242880`. -/
theorem C1_witness :
    calculatePartitionsRangeArray 10485760 (some 5242880) ≠ [] ∧
      coversExactly (calculatePartitionsRangeArray 10485760 (some 5242880))
        0 (10485760 - 1) :=
  C1_planner_ranges_cover 10485760 5242880
    (by norm_num [COPY_PART_SIZE_MINIMUM_BYTES])
    (by norm_num [COPY_PART_SIZE_MINIMUM_BYTES])

/-- Claim C2 witness: the amended theorem instantiated on the concrete client
whose complete call fails. -/
theorem C2_witness :
    S3Call.abortMultipartUpload db0 obj0 uid0 ∈
        (copyObjectMultipart completeFailsClient sb0 key0 db0 obj0
          100000004 (some 50000000)).1 ∧
      (copyObjectMultipart completeFailsClient sb0 key0 db0 obj0
          100000004 (some 50000000)).2 =
        .error (abortMultipartCopy completeFailsClient db0 obj0 uid0).2 :=
  C2_finalize_failure_runs_abort completeFailsClient sb0 key0 db0 obj0 uid0
    100000004 (some 50000000) (fun _ _ => ⟨⟨"etag"⟩⟩) ⟨"complete failed", .noDetails⟩
    rfl (fun _ _ => rfl) (fun _ => rfl)

/-- Claim C7.  Whenever the initiate call succeeds and every dispatched part
copy succeeds, the manifest handed to the complete-multipart call (which is in
the trace whether or not completion itself succeeds) has one entry per
emitted range, its part numbers are exactly `1..N` in emission order, and they
are strictly ascending.  Completion order cannot influence this: the join
(`Promise.all`) yields results in dispatch order and
`prepareResultsForCopyCompletion` derives each part number from the array
index alone. -/
theorem C7_manifest_ascending (client : MockClient)
    (sb okey db con uid : String) (object_size : Int) (cps : Option Int)
    (etag : Int → Partition → UploadPartCopyResponse)
    (hinit : client.createMultipartUploadResp = .ok uid)
    (hok : ∀ i p, client.uploadPartCopyResp i p = .ok (etag i p)) :
    ∃ manifest,
      S3Call.completeMultipartUpload db con manifest uid ∈
          (copyObjectMultipart client sb okey db con object_size cps).1 ∧
        manifest.length = (calculatePartitionsRangeArray object_size cps).length ∧
        manifest.map (fun c => c.PartNumber) =
          (List.range (calculatePartitionsRangeArray object_size cps).length).map
            (fun (i : Nat) => (i : Int) + 1) ∧
        manifest.Pairwise (fun a b => a.PartNumber < b.PartNumber) := by
  obtain ⟨vs, hvs, hlen⟩ := collectAll_ok_of_forall
    (l := (calculatePartitionsRangeArray object_size cps).enum.map
      (fun p => client.uploadPartCopyResp ((p.1 : Int) + 1) p.2))
    (fun x hx => by
      obtain ⟨p, -, hp⟩ := List.mem_map.mp hx
      exact ⟨etag ((p.1 : Int) + 1) p.2, by rw [← hp, hok]⟩)
  have hlen' : vs.length = (calculatePartitionsRangeArray object_size cps).length := by
    simpa using hlen
  refine ⟨prepareResultsForCopyCompletion vs, ?_, ?_, ?_, ?_⟩
  · simp only [copyObjectMultipart, hinit, hvs]
    rcases hc : client.completeMultipartUploadResp (prepareResultsForCopyCompletion vs)
      with e | r <;> simp [hc]
  · simp [prepareResultsForCopyCompletion, hlen']
  · rw [prepare_partNumbers vs, hlen']
  · have h := prepare_partNumbers vs
    have ha := partNumbers_ascending vs.length
    rw [← h] at ha
    exact List.pairwise_map.mp ha

/-- Claim C7 witness: the theorem instantiated on the all-success client with
two parts. -/
theorem C7_witness :
    ∃ manifest,
      S3Call.completeMultipartUpload db0 obj0 manifest uid0 ∈
          (copyObjectMultipart okClient sb0 key0 db0 obj0
            100000004 (some 50000000)).1 ∧
        manifest.length = (calculatePartitionsRangeArray 100000004 (some 50000000)).length ∧
        manifest.map (fun c => c.PartNumber) =
          (List.range (calculatePartitionsRangeArray 100000004 (some 50000000)).length).map
            (fun (i : Nat) => (i : Int) + 1) ∧
        manifest.Pairwise (fun a b => a.PartNumber < b.PartNumber) :=
  C7_manifest_ascending okClient sb0 key0 db0 obj0 uid0
    100000004 (some 50000000) (fun _ _ => ⟨⟨"etag"⟩⟩) rfl (fun _ _ => rfl)

/-- Claim C8.  When the initiate call succeeded and some dispatched part copy
fails, the run issues the abort request and then the list-parts request, and
always rejects: with the `"Abort procedure passed but copy parts were not
removed"` error carrying the listing as `details` when the listing is
non-empty, and with the `"multipart copy aborted"` error when it is empty. -/
theorem C8_abort_verify_outcomes (client : MockClient)
    (sb okey db con uid : String) (object_size : Int) (cps : Option Int)
    (parts_list : PartsList)
    (hinit : client.createMultipartUploadResp = .ok uid)
    (hfail : ∃ x ∈ (calculatePartitionsRangeArray object_size cps).enum.map
        (fun p => client.uploadPartCopyResp ((p.1 : Int) + 1) p.2), ∃ e, x = .error e)
    (habort : client.abortMultipartUploadResp = .ok ())
    (hlist : client.listPartsResp = .ok parts_list) :
    S3Call.abortMultipartUpload db con uid ∈
        (copyObjectMultipart client sb okey db con object_size cps).1 ∧
      S3Call.listParts db con uid ∈
        (copyObjectMultipart client sb okey db con object_size cps).1 ∧
      (copyObjectMultipart client sb okey db con object_size cps).2 =
        .error (if parts_list.Parts.length > 0 then
            ⟨"Abort procedure passed but copy parts were not removed",
              .listingDetails parts_list⟩
          else ⟨"multipart copy aborted", .abortParams db con uid⟩) := by
  obtain ⟨e, he⟩ := collectAll_error_of_exists hfail
  have habortrun : abortMultipartCopy client db con uid =
      ([S3Call.abortMultipartUpload db con uid, S3Call.listParts db con uid],
        if parts_list.Parts.length > 0 then
          ⟨"Abort procedure passed but copy parts were not removed",
            .listingDetails parts_list⟩
        else ⟨"multipart copy aborted", .abortParams db con uid⟩) := by
    simp only [abortMultipartCopy, habort, hlist]
    by_cases h : parts_list.Parts.length > 0 <;> simp [h]
  refine ⟨?_, ?_, ?_⟩ <;> simp [copyObjectMultipart, hinit, he, habortrun]

/-- Claim C8 witness: the theorem instantiated on the client whose part 2 fails,
with an empty post-abort listing. -/
theorem C8_witness :
    S3Call.abortMultipartUpload db0 obj0 uid0 ∈
        (copyObjectMultipart (partFailsClient msgPartFail) sb0 key0 db0 obj0
          100000004 (some 50000000)).1 ∧
      S3Call.listParts db0 obj0 uid0 ∈
        (copyObjectMultipart (partFailsClient msgPartFail) sb0 key0 db0 obj0
          100000004 (some 50000000)).1 ∧
      (copyObjectMultipart (partFailsClient msgPartFail) sb0 key0 db0 obj0
          100000004 (some 50000000)).2 =
        .error (if (⟨[]⟩ : PartsList).Parts.length > 0 then
            ⟨"Abort procedure passed but copy parts were not removed",
              .listingDetails ⟨[]⟩⟩
          else ⟨"multipart copy aborted", .abortParams db0 obj0 uid0⟩) :=
  C8_abort_verify_outcomes (partFailsClient msgPartFail) sb0 key0 db0 obj0
    uid0 100000004 (some 50000000) ⟨[]⟩ rfl
    ⟨.error ⟨"part copy failed", .noDetails⟩, by decide,
      ⟨"part copy failed", .noDetails⟩, rfl⟩
    rfl rfl

/-- Claim C9, counterexample.  Two runs that differ only in the message of the
failing part copy reject with the identical error
`⟨"multipart copy aborted", abort params⟩`: the returned error carries the
abort request parameters as its only context, and no field of it depends on —
or mentions — the original part-copy failure. -/
theorem C9_counterexample :
    (copyObjectMultipart (partFailsClient msgA) sb0 key0 db0 obj0
        100000004 (some 50000000)).2 =
      .error ⟨"multipart copy aborted", .abortParams db0 obj0 uid0⟩ ∧
    (copyObjectMultipart (partFailsClient msgB) sb0 key0 db0 obj0
        100000004 (some 50000000)).2 =
      .error ⟨"multipart copy aborted", .abortParams db0 obj0 uid0⟩ ∧
    msgA ≠ msgB := by decide

/-- Claim C9, amended.  When a part copy fails, the rejection handler discards
the original failure (`.catch(() => ...)` binds nothing): the error returned
to the caller is exactly the abort procedure's error, a function of the abort
and list-parts responses alone, so no context from the original part-copy
failure is preserved on it. -/
theorem C9_original_failure_discarded (client : MockClient)
    (sb okey db con uid : String) (object_size : Int) (cps : Option Int)
    (hinit : client.createMultipartUploadResp = .ok uid)
    (hfail : ∃ x ∈ (calculatePartitionsRangeArray object_size cps).enum.map
        (fun p => client.uploadPartCopyResp ((p.1 : Int) + 1) p.2), ∃ e, x = .error e) :
    (copyObjectMultipart client sb okey db con object_size cps).2 =
      .error (abortMultipartCopy client db con uid).2 := by
  obtain ⟨e, he⟩ := collectAll_error_of_exists hfail
  simp [copyObjectMultipart, hinit, he]

/-- Claim C9 witness: the amended theorem instantiated on the failing-part
client. -/
theorem C9_witness :
    (copyObjectMultipart (partFailsClient msgPartFail) sb0 key0 db0 obj0
        100000004 (some 50000000)).2 =
      .error (abortMultipartCopy (partFailsClient msgPartFail) db0 obj0 uid0).2 :=
  C9_original_failure_discarded (partFailsClient msgPartFail) sb0 key0 db0 obj0 uid0
    100000004 (some 50000000) rfl
    ⟨.error ⟨msgPartFail, .noDetails⟩, by decide, ⟨msgPartFail, .noDetails⟩, rfl⟩

/-- Claim C10.  For a (non-negative) `object_size` smaller than both the
effective part size and the 5,242,880-byte minimum, the planner returns the
empty list, so after a successful initiate the run issues zero copy-part
requests and proceeds directly to the complete-multipart call with an empty
parts manifest. -/
theorem C10_small_object_empty_plan (client : MockClient)
    (sb okey db con uid resp : String) (object_size : Int) (cps : Option Int)
    (hps : 0 < jsOrDefault cps DEFAULT_COPY_PART_SIZE_BYTES)
    (h0 : 0 ≤ object_size)
    (h1 : object_size < jsOrDefault cps DEFAULT_COPY_PART_SIZE_BYTES)
    (h2 : object_size < COPY_PART_SIZE_MINIMUM_BYTES)
    (hinit : client.createMultipartUploadResp = .ok uid)
    (hcomp : client.completeMultipartUploadResp [] = .ok resp) :
    calculatePartitionsRangeArray object_size cps = [] ∧
      copyObjectMultipart client sb okey db con object_size cps =
        ([.createMultipartUpload db con, .completeMultipartUpload db con [] uid],
          .ok resp) := by
  have hempty : calculatePartitionsRangeArray object_size cps = [] := by
    simp only [calculatePartitionsRangeArray,
      Int.fdiv_eq_ediv _ hps.le, Int.tmod_eq_emod h0 hps.le,
      Int.ediv_eq_zero_of_lt h0 h1, Int.emod_eq_of_lt h0 h1]
    rw [if_neg (not_le.mpr h2)]
    simp
  refine ⟨hempty, ?_⟩
  simp only [copyObjectMultipart, hinit, hempty]
  simp [collectAll, prepareResultsForCopyCompletion, hcomp]

/-- Claim C10 witness: the theorem instantiated at `object_size = 3,000,000`
with the default part size on the all-success client. -/
theorem C10_witness :
    calculatePartitionsRangeArray 3000000 none = [] ∧
      copyObjectMultipart okClient sb0 key0 db0 obj0 3000000 none =
        ([.createMultipartUpload db0 obj0,
          .completeMultipartUpload db0 obj0 [] uid0], .ok resp0) :=
  C10_small_object_empty_plan okClient sb0 key0 db0 obj0 uid0 resp0
    3000000 none (by decide) (by decide) (by decide) (by decide) rfl rfl
